import Mathlib

/-!
Shallow embedding of `src/generate_icons.py` (AI-Rescue-Ring repository).

The script is a one-shot batch converter: it opens one source image,
converts it to RGBA if needed, then for each of five Android densities it
creates a directory, resizes the image with LANCZOS resampling, and saves
four files (ic_launcher / ic_launcher_round, as PNG and WEBP), printing a
progress line after each save.

The embedding models the external environment (PIL and the OS) as a
`World`: the result of `Image.open`, abstract pixel-data transformers for
`convert`/`resize`, an abstract encoder, and failure oracles for
`os.makedirs`, `resize` and `save`.  `generate_icons` is a pure function
of the world producing the list of observable events performed before
returning or before the first uncaught exception, together with
`Option String`: `none` when the function returns normally, `some e` when
an exception `e` propagates out of it uncaught.
-/

namespace IconGen

/-- PIL resampling filters used by the script (only LANCZOS appears). -/
inductive Resampling where
  | LANCZOS
deriving DecidableEq, Repr

/-- Encoder options passed to `save`: PNG uses `optimize=True`, WEBP uses
`quality=95`. -/
inductive SaveOpts where
  | optimize
  | quality (q : Nat)
deriving DecidableEq, Repr

/-- An in-memory decoded bitmap: width, height, color mode (PIL mode
string such as "RGBA"), and abstract pixel data of type `α`. -/
structure Image (α : Type) where
  width : Nat
  height : Nat
  mode : String
  data : α
deriving DecidableEq, Repr

/-- The environment of the script: what `Image.open` returns at the fixed
source path, the abstract semantics of PIL pixel operations, the abstract
file encoder, and failure oracles telling which OS/PIL calls raise. -/
structure World (α β : Type) where
  /-- Result of `Image.open(SOURCE_ICON)`: the decoded image, or the
  exception message when opening/decoding fails. -/
  openResult : Except String (Image α)
  /-- Pixel data produced by `img.convert(mode)`. -/
  convertData : α → String → α
  /-- Pixel data produced by `img.resize((w, h), filter)`. -/
  resizeData : α → Nat → Nat → Resampling → α
  /-- Bytes produced by encoding an image in a format with options. -/
  encode : Image α → String → SaveOpts → β
  /-- Failure oracle for `os.makedirs(path, exist_ok=True)`. -/
  makedirsErr : String → Option String
  /-- Failure oracle for `resize` at a given target size. -/
  resizeErr : Nat → Option String
  /-- Failure oracle for `img.save(path, ...)`. -/
  saveErr : String → Option String

/-- `img.convert(mode)`: same dimensions, new mode, converted data. -/
def Image.convert {α β : Type} (w : World α β) (img : Image α) (m : String) : Image α :=
  { img with mode := m, data := w.convertData img.data m }

/-- `img.resize((w, h), filter)`: requested dimensions, same mode,
resampled data. -/
def Image.resize {α β : Type} (w : World α β) (img : Image α)
    (size : Nat × Nat) (f : Resampling) : Image α :=
  { width := size.1, height := size.2, mode := img.mode,
    data := w.resizeData img.data size.1 size.2 f }

/-- Observable actions of the script, in program order. -/
inductive Event (α : Type) where
  | print (s : String)
  | makedirs (path : String) (exist_ok : Bool)
  | convert (mode : String)
  | resize (size : Nat × Nat) (filter : Resampling)
  | save (path : String) (img : Image α) (format : String) (opts : SaveOpts)
deriving DecidableEq, Repr

/-- `SOURCE_ICON = "app/src/main/res/Icon.png"` (line 11). -/
def SOURCE_ICON : String := "app/src/main/res/Icon.png"

/-- `ICON_SIZES` (lines 14-20): the density table, iterated in insertion
order (Python dicts preserve insertion order). -/
def ICON_SIZES : List (String × Nat) :=
  [("mdpi", 48), ("hdpi", 72), ("xhdpi", 96), ("xxhdpi", 144), ("xxxhdpi", 192)]

/-- `MIPMAP_DIR = "app/src/main/res"` (line 23). -/
def MIPMAP_DIR : String := "app/src/main/res"

/-- Rendering of PIL's `img.size` tuple in the f-string on line 32. -/
def sizeStr {α : Type} (img : Image α) : String :=
  "(" ++ toString img.width ++ ", " ++ toString img.height ++ ")"

/-- The body of the `for density, size in ICON_SIZES.items()` loop
(lines 42-70), for one `(density, size)` pair.  Each fallible call is
guarded by its oracle; a `some e` result is the uncaught exception. -/
def runDensity {α β : Type} (w : World α β) (source_img : Image α)
    (density : String) (size : Nat) : List (Event α) × Option String :=
  let t0 : List (Event α) :=
    [Event.print ("\nGenerating " ++ density ++ " icons (" ++
      toString size ++ "x" ++ toString size ++ ")...")]
  let output_dir := MIPMAP_DIR ++ "/mipmap-" ++ density
  match w.makedirsErr output_dir with
  | some e => (t0, some e)
  | none =>
  let t1 := t0 ++ [Event.makedirs output_dir true]
  match w.resizeErr size with
  | some e => (t1, some e)
  | none =>
  let resized_img := source_img.resize w (size, size) Resampling.LANCZOS
  let t2 := t1 ++ [Event.resize (size, size) Resampling.LANCZOS]
  let png_path := output_dir ++ "/ic_launcher.png"
  match w.saveErr png_path with
  | some e => (t2, some e)
  | none =>
  let t3 := t2 ++ [Event.save png_path resized_img "PNG" SaveOpts.optimize,
    Event.print ("  ✓ Saved: " ++ png_path)]
  let round_path := output_dir ++ "/ic_launcher_round.png"
  match w.saveErr round_path with
  | some e => (t3, some e)
  | none =>
  let t4 := t3 ++ [Event.save round_path resized_img "PNG" SaveOpts.optimize,
    Event.print ("  ✓ Saved: " ++ round_path)]
  let webp_path := output_dir ++ "/ic_launcher.webp"
  match w.saveErr webp_path with
  | some e => (t4, some e)
  | none =>
  let t5 := t4 ++ [Event.save webp_path resized_img "WEBP" (SaveOpts.quality 95),
    Event.print ("  ✓ Saved: " ++ webp_path)]
  let webp_round_path := output_dir ++ "/ic_launcher_round.webp"
  match w.saveErr webp_round_path with
  | some e => (t5, some e)
  | none =>
  (t5 ++ [Event.save webp_round_path resized_img "WEBP" (SaveOpts.quality 95),
    Event.print ("  ✓ Saved: " ++ webp_round_path)], none)

/-- Sequencing of the loop over the density table: each iteration runs
`runDensity`; an uncaught exception stops the loop, keeping the events
already performed. -/
def runLoop {α β : Type} (w : World α β) (source_img : Image α) :
    List (String × Nat) → List (Event α) × Option String
  | [] => ([], none)
  | p :: rest =>
    match runDensity w source_img p.1 p.2 with
    | (t, some e) => (t, some e)
    | (t, none) =>
      match runLoop w source_img rest with
      | (t2, err) => (t ++ t2, err)

/-- `generate_icons()` (lines 25-72): the whole function.  Only the
`Image.open` failure is caught (lines 30-35); everything after a
successful load propagates via the `Option String` component. -/
def generate_icons {α β : Type} (w : World α β) : List (Event α) × Option String :=
  let t0 : List (Event α) := [Event.print ("Loading source icon: " ++ SOURCE_ICON)]
  match w.openResult with
  | Except.error e =>
    (t0 ++ [Event.print ("Error loading source icon: " ++ e)], none)
  | Except.ok img =>
    let t1 := t0 ++ [Event.print ("Source icon size: " ++ sizeStr img)]
    let (tc, source_img) :=
      if img.mode ≠ "RGBA" then
        ([Event.convert "RGBA"], img.convert w "RGBA")
      else ([], img)
    match runLoop w source_img ICON_SIZES with
    | (t2, some e) => (t1 ++ tc ++ t2, some e)
    | (t2, none) =>
      (t1 ++ tc ++ t2 ++ [Event.print "\n✓ All icons generated successfully!"], none)

/-! ## Observation functions on traces -/

/-- Paths of all `save` events of a trace, in order. -/
def savePaths {α : Type} (t : List (Event α)) : List String :=
  t.filterMap (fun e =>
    match e with
    | Event.save p _ _ _ => some p
    | _ => none)

/-- Directories of all `makedirs` events of a trace, in order. -/
def mkdirPaths {α : Type} (t : List (Event α)) : List String :=
  t.filterMap (fun e =>
    match e with
    | Event.makedirs p _ => some p
    | _ => none)

/-- Images of all `save` events of a trace, in order. -/
def savedImages {α : Type} (t : List (Event α)) : List (Image α) :=
  t.filterMap (fun e =>
    match e with
    | Event.save _ img _ _ => some img
    | _ => none)

/-- `(width, height)` of every saved image, in order. -/
def savedSizes {α : Type} (t : List (Event α)) : List (Nat × Nat) :=
  (savedImages t).map (fun img => (img.width, img.height))

/-- Arguments of all `resize` events of a trace, in order. -/
def resizeEvents {α : Type} (t : List (Event α)) : List ((Nat × Nat) × Resampling) :=
  t.filterMap (fun e =>
    match e with
    | Event.resize s f => some (s, f)
    | _ => none)

/-- The `(image, format, options)` triples saved at a given path, in
order.  Two paths with equal `savesAt` receive identical content written
with identical encoder parameters. -/
def savesAt {α : Type} (t : List (Event α)) (k : String) :
    List (Image α × String × SaveOpts) :=
  t.filterMap (fun e =>
    match e with
    | Event.save p img fmt o => if p = k then some (img, fmt, o) else none
    | _ => none)

/-- Number of `convert` events in a trace. -/
def convertCount {α : Type} (t : List (Event α)) : Nat :=
  t.countP (fun e =>
    match e with
    | Event.convert _ => true
    | _ => false)

/-- Whether an event is a `resize`. -/
def isResizeEv {α : Type} (e : Event α) : Bool :=
  match e with
  | Event.resize _ _ => true
  | _ => false

/-! ## Expected traces and success conditions -/

/-- Concatenation of per-element traces (the trace of a loop). -/
def flatTraces {α γ : Type} (f : γ → List (Event α)) : List γ → List (Event α)
  | [] => []
  | p :: rest => f p ++ flatTraces f rest

/-- A world whose OS/PIL calls after the load all succeed. -/
def okWorld {α β : Type} (w : World α β) : Prop :=
  (∀ p, w.makedirsErr p = none) ∧ (∀ s, w.resizeErr s = none) ∧
    (∀ p, w.saveErr p = none)

/-- The source image actually used by the loop: converted to RGBA when
needed (lines 37-39). -/
def rgbaOf {α β : Type} (w : World α β) (img : Image α) : Image α :=
  if img.mode ≠ "RGBA" then img.convert w "RGBA" else img

/-- The events of one successful loop iteration, explicitly. -/
def densityTrace {α β : Type} (w : World α β) (source_img : Image α)
    (p : String × Nat) : List (Event α) :=
  [Event.print ("\nGenerating " ++ p.1 ++ " icons (" ++
      toString p.2 ++ "x" ++ toString p.2 ++ ")..."),
   Event.makedirs (MIPMAP_DIR ++ "/mipmap-" ++ p.1) true,
   Event.resize (p.2, p.2) Resampling.LANCZOS,
   Event.save (MIPMAP_DIR ++ "/mipmap-" ++ p.1 ++ "/ic_launcher.png")
     (source_img.resize w (p.2, p.2) Resampling.LANCZOS) "PNG" SaveOpts.optimize,
   Event.print ("  ✓ Saved: " ++ (MIPMAP_DIR ++ "/mipmap-" ++ p.1 ++ "/ic_launcher.png")),
   Event.save (MIPMAP_DIR ++ "/mipmap-" ++ p.1 ++ "/ic_launcher_round.png")
     (source_img.resize w (p.2, p.2) Resampling.LANCZOS) "PNG" SaveOpts.optimize,
   Event.print ("  ✓ Saved: " ++ (MIPMAP_DIR ++ "/mipmap-" ++ p.1 ++ "/ic_launcher_round.png")),
   Event.save (MIPMAP_DIR ++ "/mipmap-" ++ p.1 ++ "/ic_launcher.webp")
     (source_img.resize w (p.2, p.2) Resampling.LANCZOS) "WEBP" (SaveOpts.quality 95),
   Event.print ("  ✓ Saved: " ++ (MIPMAP_DIR ++ "/mipmap-" ++ p.1 ++ "/ic_launcher.webp")),
   Event.save (MIPMAP_DIR ++ "/mipmap-" ++ p.1 ++ "/ic_launcher_round.webp")
     (source_img.resize w (p.2, p.2) Resampling.LANCZOS) "WEBP" (SaveOpts.quality 95),
   Event.print ("  ✓ Saved: " ++ (MIPMAP_DIR ++ "/mipmap-" ++ p.1 ++ "/ic_launcher_round.webp"))]

/-- The full event trace of a successful run on loaded image `img`. -/
def fullTrace {α β : Type} (w : World α β) (img : Image α) : List (Event α) :=
  [Event.print ("Loading source icon: " ++ SOURCE_ICON),
   Event.print ("Source icon size: " ++ sizeStr img)] ++
  (if img.mode ≠ "RGBA" then [Event.convert "RGBA"] else []) ++
  flatTraces (densityTrace w (rgbaOf w img)) ICON_SIZES ++
  [Event.print "\n✓ All icons generated successfully!"]

/-! ## Characterization lemmas -/

theorem runDensity_ok {α β : Type} (w : World α β) (src : Image α)
    (d : String) (s : Nat) (h : okWorld w) :
    runDensity w src d s = (densityTrace w src (d, s), none) := by
  obtain ⟨hm, hr, hs⟩ := h
  simp only [runDensity, hm, hr, hs, densityTrace]
  rfl

theorem runLoop_ok {α β : Type} (w : World α β) (src : Image α)
    (h : okWorld w) :
    ∀ l, runLoop w src l = (flatTraces (densityTrace w src) l, none) := by
  intro l
  induction l with
  | nil => rfl
  | cons p rest ih =>
    simp only [runLoop, runDensity_ok w src p.1 p.2 h, ih, flatTraces]

theorem gen_ok {α β : Type} (w : World α β) (img : Image α)
    (hopen : w.openResult = Except.ok img) (h : okWorld w) :
    generate_icons w = (fullTrace w img, none) := by
  simp only [generate_icons, hopen, runLoop_ok w _ h, fullTrace, rgbaOf]
  by_cases hmode : img.mode = "RGBA"
  · simp [hmode]
  · simp [hmode]

/-! ## Filesystem semantics of a trace

A filesystem maps paths to file contents (`β`, the encoder's output).
A `save` event overwrites the file at its path with the encoding of the
saved image; no event ever removes a file. -/

/-- The bytes an event writes at path `k`, if any. -/
def writeOf {α β : Type} (w : World α β) (e : Event α) (k : String) : Option β :=
  match e with
  | Event.save p img fmt opts => if k = p then some (w.encode img fmt opts) else none
  | _ => none

/-- Effect of one event on the filesystem. -/
def applyEvent {α β : Type} (w : World α β) (fs : String → Option β)
    (e : Event α) : String → Option β :=
  fun k =>
    match writeOf w e k with
    | some v => some v
    | none => fs k

/-- Effect of a whole trace on the filesystem, in order. -/
def applyTrace {α β : Type} (w : World α β) (fs : String → Option β) :
    List (Event α) → String → Option β
  | [] => fs
  | e :: rest => applyTrace w (applyEvent w fs e) rest

/-- The last write a trace performs at path `k`, if any. -/
def lastW {α β : Type} (w : World α β) : List (Event α) → String → Option β
  | [], _ => none
  | e :: rest, k =>
    match lastW w rest k with
    | some v => some v
    | none => writeOf w e k

theorem applyTrace_lastW {α β : Type} (w : World α β) :
    ∀ (t : List (Event α)) (fs : String → Option β) (k : String),
      applyTrace w fs t k =
        match lastW w t k with
        | some v => some v
        | none => fs k := by
  intro t
  induction t with
  | nil => intro fs k; rfl
  | cons e rest ih =>
    intro fs k
    simp only [applyTrace, lastW, ih]
    cases lastW w rest k with
    | some v => rfl
    | none => rfl

/-- Replaying a trace over its own result changes nothing: each path ends
at its last written value either way. -/
theorem applyTrace_twice {α β : Type} (w : World α β)
    (t : List (Event α)) (fs : String → Option β) :
    applyTrace w (applyTrace w fs t) t = applyTrace w fs t := by
  funext k
  rw [applyTrace_lastW, applyTrace_lastW]
  cases h : lastW w t k with
  | some v => rfl
  | none => rfl

/-! ## Failure propagation -/

/-- The same world with every post-load failure oracle cleared. -/
def clearErr {α β : Type} (w : World α β) : World α β :=
  { w with makedirsErr := fun _ => none, resizeErr := fun _ => none,
           saveErr := fun _ => none }

theorem clearErr_ok {α β : Type} (w : World α β) : okWorld (clearErr w) :=
  ⟨fun _ => rfl, fun _ => rfl, fun _ => rfl⟩

/-- One loop iteration: its trace is an initial segment of the successful
iteration's trace, it is the whole of it exactly when no call failed, and
a raised exception is the unmodified error of a failed OS/PIL call. -/
theorem runDensity_agrees {α β : Type} (w : World α β) (src : Image α)
    (d : String) (s : Nat) :
    (∃ u, (runDensity w src d s).1 ++ u = densityTrace w src (d, s)) ∧
    ((runDensity w src d s).2 = none →
      (runDensity w src d s).1 = densityTrace w src (d, s)) ∧
    (∀ e, (runDensity w src d s).2 = some e →
      (∃ p, w.makedirsErr p = some e) ∨ (∃ n, w.resizeErr n = some e) ∨
        (∃ p, w.saveErr p = some e)) := by
  simp only [runDensity]
  cases h1 : w.makedirsErr (MIPMAP_DIR ++ "/mipmap-" ++ d) with
  | some e =>
    refine ⟨⟨_, rfl⟩, by simp, ?_⟩
    intro e' he'
    exact Or.inl ⟨_, by rw [h1]; simpa using he'⟩
  | none =>
  cases h2 : w.resizeErr s with
  | some e =>
    refine ⟨⟨_, rfl⟩, by simp, ?_⟩
    intro e' he'
    exact Or.inr (Or.inl ⟨_, by rw [h2]; simpa using he'⟩)
  | none =>
  cases h3 : w.saveErr (MIPMAP_DIR ++ "/mipmap-" ++ d ++ "/ic_launcher.png") with
  | some e =>
    refine ⟨⟨_, rfl⟩, by simp, ?_⟩
    intro e' he'
    exact Or.inr (Or.inr ⟨_, by rw [h3]; simpa using he'⟩)
  | none =>
  cases h4 : w.saveErr (MIPMAP_DIR ++ "/mipmap-" ++ d ++ "/ic_launcher_round.png") with
  | some e =>
    refine ⟨⟨_, rfl⟩, by simp, ?_⟩
    intro e' he'
    exact Or.inr (Or.inr ⟨_, by rw [h4]; simpa using he'⟩)
  | none =>
  cases h5 : w.saveErr (MIPMAP_DIR ++ "/mipmap-" ++ d ++ "/ic_launcher.webp") with
  | some e =>
    refine ⟨⟨_, rfl⟩, by simp, ?_⟩
    intro e' he'
    exact Or.inr (Or.inr ⟨_, by rw [h5]; simpa using he'⟩)
  | none =>
  cases h6 : w.saveErr (MIPMAP_DIR ++ "/mipmap-" ++ d ++ "/ic_launcher_round.webp") with
  | some e =>
    refine ⟨⟨_, rfl⟩, by simp, ?_⟩
    intro e' he'
    exact Or.inr (Or.inr ⟨_, by rw [h6]; simpa using he'⟩)
  | none =>
    exact ⟨⟨[], by simp [densityTrace]⟩, by intro; simp [densityTrace], by simp⟩

/-- The loop: its trace is an initial segment of the all-successful loop
trace, the whole of it exactly when nothing failed, and a raised
exception is the unmodified error of a failed OS/PIL call. -/
theorem runLoop_agrees {α β : Type} (w : World α β) (src : Image α) :
    ∀ l, (∃ u, (runLoop w src l).1 ++ u = flatTraces (densityTrace w src) l) ∧
    ((runLoop w src l).2 = none →
      (runLoop w src l).1 = flatTraces (densityTrace w src) l) ∧
    (∀ e, (runLoop w src l).2 = some e →
      (∃ p, w.makedirsErr p = some e) ∨ (∃ n, w.resizeErr n = some e) ∨
        (∃ p, w.saveErr p = some e)) := by
  intro l
  induction l with
  | nil => exact ⟨⟨[], rfl⟩, fun _ => rfl, by simp [runLoop]⟩
  | cons p rest ih =>
    obtain ⟨⟨u, hu⟩, hnone, herr⟩ := runDensity_agrees w src p.1 p.2
    obtain ⟨⟨u2, hu2⟩, hnone2, herr2⟩ := ih
    cases hrd : runDensity w src p.1 p.2 with
    | mk t err =>
      rw [hrd] at hu hnone herr
      simp only at hu hnone herr
      cases err with
      | some e =>
        refine ⟨⟨u ++ flatTraces (densityTrace w src) rest, ?_⟩, ?_, ?_⟩
        · simp only [runLoop, hrd, flatTraces, ← hu, List.append_assoc]
        · intro hc; simp [runLoop, hrd] at hc
        · intro e' he'
          simp only [runLoop, hrd] at he'
          exact herr e' he'
      | none =>
        cases hrl : runLoop w src rest with
        | mk t2 err2 =>
          rw [hrl] at hu2 hnone2 herr2
          simp only at hu2 hnone2 herr2
          refine ⟨⟨u2, ?_⟩, ?_, ?_⟩
          · simp only [runLoop, hrd, hrl, flatTraces, hnone rfl,
              List.append_assoc, hu2]
          · intro hc
            simp only [runLoop, hrd, hrl] at hc ⊢
            simp only [flatTraces, hnone rfl, hnone2 hc]
          · intro e' he'
            simp only [runLoop, hrd, hrl] at he'
            exact herr2 e' he'

/-- `fullTrace` does not depend on the failure oracles. -/
theorem fullTrace_clearErr {α β : Type} (w : World α β) (img : Image α) :
    fullTrace (clearErr w) img = fullTrace w img := rfl

/-- `generate_icons` after a successful load: its trace is an initial
segment of the successful run's trace, the whole of it exactly when it
returns normally, and a raised exception is the unmodified error of some
failed post-load OS/PIL call. -/
theorem gen_agrees {α β : Type} (w : World α β) (img : Image α)
    (hopen : w.openResult = Except.ok img) :
    (∃ u, (generate_icons w).1 ++ u = fullTrace w img) ∧
    ((generate_icons w).2 = none → (generate_icons w).1 = fullTrace w img) ∧
    (∀ e, (generate_icons w).2 = some e →
      (∃ p, w.makedirsErr p = some e) ∨ (∃ n, w.resizeErr n = some e) ∨
        (∃ p, w.saveErr p = some e)) := by
  obtain ⟨⟨u, hu⟩, hnone, herr⟩ := runLoop_agrees w (rgbaOf w img) ICON_SIZES
  cases hrl : runLoop w (rgbaOf w img) ICON_SIZES with
  | mk t2 err =>
    rw [hrl] at hu hnone herr
    simp only at hu hnone herr
    have hgen : generate_icons w =
        ([Event.print ("Loading source icon: " ++ SOURCE_ICON),
          Event.print ("Source icon size: " ++ sizeStr img)] ++
         (if img.mode ≠ "RGBA" then [Event.convert "RGBA"] else []) ++ t2 ++
         (if err = none then
            [Event.print "\n✓ All icons generated successfully!"] else []),
         err) := by
      by_cases hmode : img.mode = "RGBA"
      · have hrl2 : runLoop w img ICON_SIZES = (t2, err) := by
          simpa [rgbaOf, hmode] using hrl
        simp only [generate_icons, hopen, hmode, ne_eq, not_true_eq_false,
          ite_false, hrl2]
        cases err with
        | some e => simp
        | none => simp
      · have hrl2 : runLoop w (img.convert w "RGBA") ICON_SIZES = (t2, err) := by
          simpa [rgbaOf, hmode] using hrl
        simp only [generate_icons, hopen, ne_eq, hmode, not_false_eq_true,
          ite_true, hrl2]
        cases err with
        | some e => simp
        | none => simp
    cases err with
    | none =>
      have ht2 := hnone rfl
      refine ⟨⟨[], ?_⟩, fun _ => ?_, ?_⟩
      · rw [hgen]
        simp [fullTrace, ht2, List.append_assoc]
      · rw [hgen]
        simp [fullTrace, ht2, List.append_assoc]
      · intro e he
        rw [hgen] at he
        simp at he
    | some e0 =>
      refine ⟨⟨u ++ [Event.print "\n✓ All icons generated successfully!"], ?_⟩,
        ?_, ?_⟩
      · rw [hgen]
        simp only [fullTrace, List.append_assoc, List.append_nil, reduceCtorEq,
          ite_false]
        rw [← hu]
        simp [List.append_assoc]
      · intro hc
        rw [hgen] at hc
        simp at hc
      · intro e he
        rw [hgen] at he
        simp only at he
        exact herr e he

/-- The 20 output file paths, in write order. -/
def iconPaths : List String :=
  ["app/src/main/res/mipmap-mdpi/ic_launcher.png",
   "app/src/main/res/mipmap-mdpi/ic_launcher_round.png",
   "app/src/main/res/mipmap-mdpi/ic_launcher.webp",
   "app/src/main/res/mipmap-mdpi/ic_launcher_round.webp",
   "app/src/main/res/mipmap-hdpi/ic_launcher.png",
   "app/src/main/res/mipmap-hdpi/ic_launcher_round.png",
   "app/src/main/res/mipmap-hdpi/ic_launcher.webp",
   "app/src/main/res/mipmap-hdpi/ic_launcher_round.webp",
   "app/src/main/res/mipmap-xhdpi/ic_launcher.png",
   "app/src/main/res/mipmap-xhdpi/ic_launcher_round.png",
   "app/src/main/res/mipmap-xhdpi/ic_launcher.webp",
   "app/src/main/res/mipmap-xhdpi/ic_launcher_round.webp",
   "app/src/main/res/mipmap-xxhdpi/ic_launcher.png",
   "app/src/main/res/mipmap-xxhdpi/ic_launcher_round.png",
   "app/src/main/res/mipmap-xxhdpi/ic_launcher.webp",
   "app/src/main/res/mipmap-xxhdpi/ic_launcher_round.webp",
   "app/src/main/res/mipmap-xxxhdpi/ic_launcher.png",
   "app/src/main/res/mipmap-xxxhdpi/ic_launcher_round.png",
   "app/src/main/res/mipmap-xxxhdpi/ic_launcher.webp",
   "app/src/main/res/mipmap-xxxhdpi/ic_launcher_round.webp"]

/-- The five output directories, in creation order. -/
def mipmapDirs : List String :=
  ["app/src/main/res/mipmap-mdpi", "app/src/main/res/mipmap-hdpi",
   "app/src/main/res/mipmap-xhdpi", "app/src/main/res/mipmap-xxhdpi",
   "app/src/main/res/mipmap-xxxhdpi"]

theorem savePaths_fullTrace {α β : Type} (w : World α β) (img : Image α) :
    savePaths (fullTrace w img) = iconPaths := by
  simp only [fullTrace, savePaths, List.filterMap_append, flatTraces,
    densityTrace, ICON_SIZES]
  by_cases hmode : img.mode = "RGBA" <;> simp [hmode] <;> decide

/-- Last element of a list, computed with the same recursion shape as
`lastW`. -/
def lastTriple {γ : Type} : List γ → Option γ
  | [] => none
  | x :: rest =>
    match lastTriple rest with
    | some v => some v
    | none => some x

/-- The last write at a path is the encoding of the last `save` at it. -/
theorem lastW_savesAt {α β : Type} (w : World α β) :
    ∀ (t : List (Event α)) (k : String),
      lastW w t k =
        Option.map (fun x => w.encode x.1 x.2.1 x.2.2) (lastTriple (savesAt t k)) := by
  intro t
  induction t with
  | nil => intro k; rfl
  | cons e rest ih =>
    intro k
    have hw : writeOf w e k =
        Option.map (fun x => w.encode x.1 x.2.1 x.2.2)
          (match e with
           | Event.save p img fmt o => if p = k then some (img, fmt, o) else none
           | _ => none) := by
      cases e with
      | save p img fmt o =>
        by_cases hp : p = k
        · subst hp
          simp [writeOf]
        · have hk : ¬ k = p := fun hc => hp hc.symm
          simp [writeOf, hp, hk]
      | print s => rfl
      | makedirs p x => rfl
      | convert m => rfl
      | resize s f => rfl
    cases e with
    | save p img fmt o =>
      by_cases hp : p = k
      · simp only [savesAt, List.filterMap_cons, hp, if_pos, ite_true] at *
        simp only [lastW, ih, lastTriple, savesAt]
        cases lastTriple (List.filterMap _ rest) with
        | some v => rfl
        | none => simpa using hw
      · simp only [savesAt, List.filterMap_cons, hp, ite_false] at *
        simp only [lastW, ih, savesAt]
        cases lastTriple (List.filterMap _ rest) with
        | some v => rfl
        | none => simpa [hp] using hw
    | print s =>
      simp only [savesAt, List.filterMap_cons] at *
      simp only [lastW, ih, savesAt]
      cases lastTriple (List.filterMap _ rest) with
      | some v => rfl
      | none => simpa using hw
    | makedirs p x =>
      simp only [savesAt, List.filterMap_cons] at *
      simp only [lastW, ih, savesAt]
      cases lastTriple (List.filterMap _ rest) with
      | some v => rfl
      | none => simpa using hw
    | convert m =>
      simp only [savesAt, List.filterMap_cons] at *
      simp only [lastW, ih, savesAt]
      cases lastTriple (List.filterMap _ rest) with
      | some v => rfl
      | none => simpa using hw
    | resize s f =>
      simp only [savesAt, List.filterMap_cons] at *
      simp only [lastW, ih, savesAt]
      cases lastTriple (List.filterMap _ rest) with
      | some v => rfl
      | none => simpa using hw

/-- When a path receives exactly one save, the filesystem afterwards
holds the encoding of that save, whatever it held before. -/
theorem applyTrace_singleton {α β : Type} (w : World α β)
    (fs : String → Option β) (t : List (Event α)) (k : String)
    (x : Image α × String × SaveOpts) (h : savesAt t k = [x]) :
    applyTrace w fs t k = some (w.encode x.1 x.2.1 x.2.2) := by
  rw [applyTrace_lastW, lastW_savesAt, h]
  rfl

/-! ## Concrete test worlds -/

/-- A concrete RGBA source image. -/
def testImg : Image Unit := { width := 1024, height := 1024, mode := "RGBA", data := () }

/-- A world where the load succeeds and nothing fails. -/
def okTestWorld : World Unit Unit :=
  { openResult := Except.ok testImg,
    convertData := fun _ _ => (),
    resizeData := fun _ _ _ _ => (),
    encode := fun _ _ _ => (),
    makedirsErr := fun _ => none,
    resizeErr := fun _ => none,
    saveErr := fun _ => none }

theorem okTestWorld_ok : okWorld okTestWorld :=
  ⟨fun _ => rfl, fun _ => rfl, fun _ => rfl⟩

/-- A world where the source image is missing. -/
def missingWorld : World Unit Unit :=
  { okTestWorld with
    openResult := Except.error
      "[Errno 2] No such file or directory: 'app/src/main/res/Icon.png'" }

/-- A concrete RGB (3-channel) source image. -/
def rgbImg : Image Unit := { width := 512, height := 256, mode := "RGB", data := () }

/-- A world where the load yields a non-RGBA image. -/
def rgbWorld : World Unit Unit :=
  { okTestWorld with openResult := Except.ok rgbImg }

theorem rgbWorld_ok : okWorld rgbWorld :=
  ⟨fun _ => rfl, fun _ => rfl, fun _ => rfl⟩

/-- A world where one `save` call (hdpi `ic_launcher.webp`) raises. -/
def failWorld : World Unit Unit :=
  { okTestWorld with
    saveErr := fun p =>
      if p = "app/src/main/res/mipmap-hdpi/ic_launcher.webp" then
        some "disk full" else none }

/-! ## Claims -/

/-- C1: For every successfully loaded source image, `generate_icons`
writes exactly 20 output files: for each of the five densities mdpi,
hdpi, xhdpi, xxhdpi, xxxhdpi, the directory
`app/src/main/res/mipmap-<density>/` receives exactly the four files
`ic_launcher.png`, `ic_launcher_round.png`, `ic_launcher.webp`,
`ic_launcher_round.webp`, and no other files are written. -/
theorem spec_C1 {α β : Type} (w : World α β) (img : Image α)
    (hopen : w.openResult = Except.ok img) (h : okWorld w) :
    savePaths (generate_icons w).1 = iconPaths ∧
    iconPaths.length = 20 ∧ iconPaths.Nodup := by
  refine ⟨?_, by decide, by decide⟩
  rw [gen_ok w img hopen h]
  exact savePaths_fullTrace w img

theorem spec_C1_witness :
    savePaths (generate_icons okTestWorld).1 = iconPaths ∧
    iconPaths.length = 20 ∧ iconPaths.Nodup :=
  spec_C1 okTestWorld testImg rfl ⟨fun _ => rfl, fun _ => rfl, fun _ => rfl⟩

/-- The output path of file `name` in density `d`'s directory. -/
def densityKey (d : String) (name : String) : String :=
  MIPMAP_DIR ++ "/mipmap-" ++ d ++ "/" ++ name

set_option maxHeartbeats 1600000 in
/-- C3: For every density, `ic_launcher_round.png` is written from the
same resized bitmap as `ic_launcher.png` with the same encoding
parameters, so the two files have identical pixel content (byte-identical
at write time); no circular mask or any other transformation is applied
to the "round" variant.  The same holds for the two `.webp` files.  The
`savesAt` equalities state that the round path receives exactly the same
(image, format, options) writes as the plain path; the `applyTrace`
equalities state that the resulting files are identical bytes. -/
theorem spec_C3 {α β : Type} (w : World α β) (img : Image α)
    (hopen : w.openResult = Except.ok img) (h : okWorld w) :
    ∀ p ∈ ICON_SIZES,
      savesAt (generate_icons w).1 (densityKey p.1 "ic_launcher.png") =
        savesAt (generate_icons w).1 (densityKey p.1 "ic_launcher_round.png") ∧
      savesAt (generate_icons w).1 (densityKey p.1 "ic_launcher.webp") =
        savesAt (generate_icons w).1 (densityKey p.1 "ic_launcher_round.webp") ∧
      savesAt (generate_icons w).1 (densityKey p.1 "ic_launcher.png") ≠ [] ∧
      ∀ fs : String → Option β,
        applyTrace w fs (generate_icons w).1 (densityKey p.1 "ic_launcher.png") =
          applyTrace w fs (generate_icons w).1 (densityKey p.1 "ic_launcher_round.png") ∧
        applyTrace w fs (generate_icons w).1 (densityKey p.1 "ic_launcher.webp") =
          applyTrace w fs (generate_icons w).1 (densityKey p.1 "ic_launcher_round.webp") := by
  rw [gen_ok w img hopen h]
  intro p hp
  simp only [ICON_SIZES, List.mem_cons, List.not_mem_nil, or_false] at hp
  rcases hp with rfl | rfl | rfl | rfl | rfl
  · have h1 : savesAt (fullTrace w img) (densityKey "mdpi" "ic_launcher.png") =
        [((rgbaOf w img).resize w ((48 : Nat), (48 : Nat)) Resampling.LANCZOS,
          "PNG", SaveOpts.optimize)] := by
      by_cases hmode : img.mode = "RGBA" <;>
        simp [fullTrace, flatTraces, densityTrace, savesAt, ICON_SIZES,
          MIPMAP_DIR, densityKey, sizeStr, hmode, rgbaOf]
    have h2 : savesAt (fullTrace w img) (densityKey "mdpi" "ic_launcher_round.png") =
        [((rgbaOf w img).resize w ((48 : Nat), (48 : Nat)) Resampling.LANCZOS,
          "PNG", SaveOpts.optimize)] := by
      by_cases hmode : img.mode = "RGBA" <;>
        simp [fullTrace, flatTraces, densityTrace, savesAt, ICON_SIZES,
          MIPMAP_DIR, densityKey, sizeStr, hmode, rgbaOf]
    have h3 : savesAt (fullTrace w img) (densityKey "mdpi" "ic_launcher.webp") =
        [((rgbaOf w img).resize w ((48 : Nat), (48 : Nat)) Resampling.LANCZOS,
          "WEBP", SaveOpts.quality 95)] := by
      by_cases hmode : img.mode = "RGBA" <;>
        simp [fullTrace, flatTraces, densityTrace, savesAt, ICON_SIZES,
          MIPMAP_DIR, densityKey, sizeStr, hmode, rgbaOf]
    have h4 : savesAt (fullTrace w img) (densityKey "mdpi" "ic_launcher_round.webp") =
        [((rgbaOf w img).resize w ((48 : Nat), (48 : Nat)) Resampling.LANCZOS,
          "WEBP", SaveOpts.quality 95)] := by
      by_cases hmode : img.mode = "RGBA" <;>
        simp [fullTrace, flatTraces, densityTrace, savesAt, ICON_SIZES,
          MIPMAP_DIR, densityKey, sizeStr, hmode, rgbaOf]
    refine ⟨h1.trans h2.symm, h3.trans h4.symm, by rw [h1]; simp, fun fs => ⟨?_, ?_⟩⟩
    · rw [applyTrace_singleton w fs _ _ _ h1, applyTrace_singleton w fs _ _ _ h2]
    · rw [applyTrace_singleton w fs _ _ _ h3, applyTrace_singleton w fs _ _ _ h4]
  · have h1 : savesAt (fullTrace w img) (densityKey "hdpi" "ic_launcher.png") =
        [((rgbaOf w img).resize w ((72 : Nat), (72 : Nat)) Resampling.LANCZOS,
          "PNG", SaveOpts.optimize)] := by
      by_cases hmode : img.mode = "RGBA" <;>
        simp [fullTrace, flatTraces, densityTrace, savesAt, ICON_SIZES,
          MIPMAP_DIR, densityKey, sizeStr, hmode, rgbaOf]
    have h2 : savesAt (fullTrace w img) (densityKey "hdpi" "ic_launcher_round.png") =
        [((rgbaOf w img).resize w ((72 : Nat), (72 : Nat)) Resampling.LANCZOS,
          "PNG", SaveOpts.optimize)] := by
      by_cases hmode : img.mode = "RGBA" <;>
        simp [fullTrace, flatTraces, densityTrace, savesAt, ICON_SIZES,
          MIPMAP_DIR, densityKey, sizeStr, hmode, rgbaOf]
    have h3 : savesAt (fullTrace w img) (densityKey "hdpi" "ic_launcher.webp") =
        [((rgbaOf w img).resize w ((72 : Nat), (72 : Nat)) Resampling.LANCZOS,
          "WEBP", SaveOpts.quality 95)] := by
      by_cases hmode : img.mode = "RGBA" <;>
        simp [fullTrace, flatTraces, densityTrace, savesAt, ICON_SIZES,
          MIPMAP_DIR, densityKey, sizeStr, hmode, rgbaOf]
    have h4 : savesAt (fullTrace w img) (densityKey "hdpi" "ic_launcher_round.webp") =
        [((rgbaOf w img).resize w ((72 : Nat), (72 : Nat)) Resampling.LANCZOS,
          "WEBP", SaveOpts.quality 95)] := by
      by_cases hmode : img.mode = "RGBA" <;>
        simp [fullTrace, flatTraces, densityTrace, savesAt, ICON_SIZES,
          MIPMAP_DIR, densityKey, sizeStr, hmode, rgbaOf]
    refine ⟨h1.trans h2.symm, h3.trans h4.symm, by rw [h1]; simp, fun fs => ⟨?_, ?_⟩⟩
    · rw [applyTrace_singleton w fs _ _ _ h1, applyTrace_singleton w fs _ _ _ h2]
    · rw [applyTrace_singleton w fs _ _ _ h3, applyTrace_singleton w fs _ _ _ h4]
  · have h1 : savesAt (fullTrace w img) (densityKey "xhdpi" "ic_launcher.png") =
        [((rgbaOf w img).resize w ((96 : Nat), (96 : Nat)) Resampling.LANCZOS,
          "PNG", SaveOpts.optimize)] := by
      by_cases hmode : img.mode = "RGBA" <;>
        simp [fullTrace, flatTraces, densityTrace, savesAt, ICON_SIZES,
          MIPMAP_DIR, densityKey, sizeStr, hmode, rgbaOf]
    have h2 : savesAt (fullTrace w img) (densityKey "xhdpi" "ic_launcher_round.png") =
        [((rgbaOf w img).resize w ((96 : Nat), (96 : Nat)) Resampling.LANCZOS,
          "PNG", SaveOpts.optimize)] := by
      by_cases hmode : img.mode = "RGBA" <;>
        simp [fullTrace, flatTraces, densityTrace, savesAt, ICON_SIZES,
          MIPMAP_DIR, densityKey, sizeStr, hmode, rgbaOf]
    have h3 : savesAt (fullTrace w img) (densityKey "xhdpi" "ic_launcher.webp") =
        [((rgbaOf w img).resize w ((96 : Nat), (96 : Nat)) Resampling.LANCZOS,
          "WEBP", SaveOpts.quality 95)] := by
      by_cases hmode : img.mode = "RGBA" <;>
        simp [fullTrace, flatTraces, densityTrace, savesAt, ICON_SIZES,
          MIPMAP_DIR, densityKey, sizeStr, hmode, rgbaOf]
    have h4 : savesAt (fullTrace w img) (densityKey "xhdpi" "ic_launcher_round.webp") =
        [((rgbaOf w img).resize w ((96 : Nat), (96 : Nat)) Resampling.LANCZOS,
          "WEBP", SaveOpts.quality 95)] := by
      by_cases hmode : img.mode = "RGBA" <;>
        simp [fullTrace, flatTraces, densityTrace, savesAt, ICON_SIZES,
          MIPMAP_DIR, densityKey, sizeStr, hmode, rgbaOf]
    refine ⟨h1.trans h2.symm, h3.trans h4.symm, by rw [h1]; simp, fun fs => ⟨?_, ?_⟩⟩
    · rw [applyTrace_singleton w fs _ _ _ h1, applyTrace_singleton w fs _ _ _ h2]
    · rw [applyTrace_singleton w fs _ _ _ h3, applyTrace_singleton w fs _ _ _ h4]
  · have h1 : savesAt (fullTrace w img) (densityKey "xxhdpi" "ic_launcher.png") =
        [((rgbaOf w img).resize w ((144 : Nat), (144 : Nat)) Resampling.LANCZOS,
          "PNG", SaveOpts.optimize)] := by
      by_cases hmode : img.mode = "RGBA" <;>
        simp [fullTrace, flatTraces, densityTrace, savesAt, ICON_SIZES,
          MIPMAP_DIR, densityKey, sizeStr, hmode, rgbaOf]
    have h2 : savesAt (fullTrace w img) (densityKey "xxhdpi" "ic_launcher_round.png") =
        [((rgbaOf w img).resize w ((144 : Nat), (144 : Nat)) Resampling.LANCZOS,
          "PNG", SaveOpts.optimize)] := by
      by_cases hmode : img.mode = "RGBA" <;>
        simp [fullTrace, flatTraces, densityTrace, savesAt, ICON_SIZES,
          MIPMAP_DIR, densityKey, sizeStr, hmode, rgbaOf]
    have h3 : savesAt (fullTrace w img) (densityKey "xxhdpi" "ic_launcher.webp") =
        [((rgbaOf w img).resize w ((144 : Nat), (144 : Nat)) Resampling.LANCZOS,
          "WEBP", SaveOpts.quality 95)] := by
      by_cases hmode : img.mode = "RGBA" <;>
        simp [fullTrace, flatTraces, densityTrace, savesAt, ICON_SIZES,
          MIPMAP_DIR, densityKey, sizeStr, hmode, rgbaOf]
    have h4 : savesAt (fullTrace w img) (densityKey "xxhdpi" "ic_launcher_round.webp") =
        [((rgbaOf w img).resize w ((144 : Nat), (144 : Nat)) Resampling.LANCZOS,
          "WEBP", SaveOpts.quality 95)] := by
      by_cases hmode : img.mode = "RGBA" <;>
        simp [fullTrace, flatTraces, densityTrace, savesAt, ICON_SIZES,
          MIPMAP_DIR, densityKey, sizeStr, hmode, rgbaOf]
    refine ⟨h1.trans h2.symm, h3.trans h4.symm, by rw [h1]; simp, fun fs => ⟨?_, ?_⟩⟩
    · rw [applyTrace_singleton w fs _ _ _ h1, applyTrace_singleton w fs _ _ _ h2]
    · rw [applyTrace_singleton w fs _ _ _ h3, applyTrace_singleton w fs _ _ _ h4]
  · have h1 : savesAt (fullTrace w img) (densityKey "xxxhdpi" "ic_launcher.png") =
        [((rgbaOf w img).resize w ((192 : Nat), (192 : Nat)) Resampling.LANCZOS,
          "PNG", SaveOpts.optimize)] := by
      by_cases hmode : img.mode = "RGBA" <;>
        simp [fullTrace, flatTraces, densityTrace, savesAt, ICON_SIZES,
          MIPMAP_DIR, densityKey, sizeStr, hmode, rgbaOf]
    have h2 : savesAt (fullTrace w img) (densityKey "xxxhdpi" "ic_launcher_round.png") =
        [((rgbaOf w img).resize w ((192 : Nat), (192 : Nat)) Resampling.LANCZOS,
          "PNG", SaveOpts.optimize)] := by
      by_cases hmode : img.mode = "RGBA" <;>
        simp [fullTrace, flatTraces, densityTrace, savesAt, ICON_SIZES,
          MIPMAP_DIR, densityKey, sizeStr, hmode, rgbaOf]
    have h3 : savesAt (fullTrace w img) (densityKey "xxxhdpi" "ic_launcher.webp") =
        [((rgbaOf w img).resize w ((192 : Nat), (192 : Nat)) Resampling.LANCZOS,
          "WEBP", SaveOpts.quality 95)] := by
      by_cases hmode : img.mode = "RGBA" <;>
        simp [fullTrace, flatTraces, densityTrace, savesAt, ICON_SIZES,
          MIPMAP_DIR, densityKey, sizeStr, hmode, rgbaOf]
    have h4 : savesAt (fullTrace w img) (densityKey "xxxhdpi" "ic_launcher_round.webp") =
        [((rgbaOf w img).resize w ((192 : Nat), (192 : Nat)) Resampling.LANCZOS,
          "WEBP", SaveOpts.quality 95)] := by
      by_cases hmode : img.mode = "RGBA" <;>
        simp [fullTrace, flatTraces, densityTrace, savesAt, ICON_SIZES,
          MIPMAP_DIR, densityKey, sizeStr, hmode, rgbaOf]
    refine ⟨h1.trans h2.symm, h3.trans h4.symm, by rw [h1]; simp, fun fs => ⟨?_, ?_⟩⟩
    · rw [applyTrace_singleton w fs _ _ _ h1, applyTrace_singleton w fs _ _ _ h2]
    · rw [applyTrace_singleton w fs _ _ _ h3, applyTrace_singleton w fs _ _ _ h4]

theorem spec_C3_witness :
    savesAt (generate_icons okTestWorld).1 (densityKey "hdpi" "ic_launcher.png") =
      savesAt (generate_icons okTestWorld).1 (densityKey "hdpi" "ic_launcher_round.png") :=
  (spec_C3 okTestWorld testImg rfl ⟨fun _ => rfl, fun _ => rfl, fun _ => rfl⟩
    ("hdpi", 72) (by decide)).1

/-- C2: If opening/decoding the source image at the fixed path
`app/src/main/res/Icon.png` fails for any reason, `generate_icons` prints
an error message including the underlying cause and returns normally: it
raises no exception, creates no mipmap directory, and writes no output
file. -/
theorem spec_C2 {α β : Type} (w : World α β) (e : String)
    (hopen : w.openResult = Except.error e) :
    generate_icons w =
      ([Event.print ("Loading source icon: " ++ SOURCE_ICON),
        Event.print ("Error loading source icon: " ++ e)], none) ∧
    savePaths (generate_icons w).1 = [] ∧
    mkdirPaths (generate_icons w).1 = [] := by
  have hg : generate_icons w =
      ([Event.print ("Loading source icon: " ++ SOURCE_ICON),
        Event.print ("Error loading source icon: " ++ e)], none) := by
    simp [generate_icons, hopen]
  exact ⟨hg, by rw [hg]; rfl, by rw [hg]; rfl⟩

theorem spec_C2_witness :
    generate_icons missingWorld =
      ([Event.print ("Loading source icon: " ++ SOURCE_ICON),
        Event.print ("Error loading source icon: " ++
          "[Errno 2] No such file or directory: 'app/src/main/res/Icon.png'")],
       none) ∧
    savePaths (generate_icons missingWorld).1 = [] ∧
    mkdirPaths (generate_icons missingWorld).1 = [] :=
  spec_C2 missingWorld
    "[Errno 2] No such file or directory: 'app/src/main/res/Icon.png'" rfl

/-- Each element repeated four times, in order. -/
def rep4 {γ : Type} : List γ → List γ
  | [] => []
  | x :: rest => x :: x :: x :: x :: rep4 rest

/-- The image used by the loop always has mode RGBA. -/
theorem rgbaOf_mode {α β : Type} (w : World α β) (img : Image α) :
    (rgbaOf w img).mode = "RGBA" := by
  by_cases hmode : img.mode = "RGBA" <;> simp [rgbaOf, Image.convert, hmode]

/-- A successful run saves, per density in table order, four copies of
the one bitmap resized from the (converted) source for that density. -/
theorem savedImages_fullTrace {α β : Type} (w : World α β) (img : Image α) :
    savedImages (fullTrace w img) =
      rep4 (ICON_SIZES.map
        (fun p => (rgbaOf w img).resize w (p.2, p.2) Resampling.LANCZOS)) := by
  by_cases hmode : img.mode = "RGBA" <;>
    simp [fullTrace, flatTraces, densityTrace, savedImages, rep4, ICON_SIZES,
      hmode, rgbaOf]

/-- C4: If the loaded source image's color mode is not RGBA, the function
converts it to RGBA exactly once, before any resize, so every resized and
saved bitmap carries an alpha channel; if the image is already RGBA, no
conversion is performed.  Conjunct 1 counts the conversions, conjunct 2
says no conversion occurs at or after the first resize, conjunct 3 says
every saved bitmap has mode RGBA. -/
theorem spec_C4 {α β : Type} (w : World α β) (img : Image α)
    (hopen : w.openResult = Except.ok img) (h : okWorld w) :
    convertCount (generate_icons w).1 = (if img.mode = "RGBA" then 0 else 1) ∧
    convertCount ((generate_icons w).1.dropWhile (fun e => !isResizeEv e)) = 0 ∧
    ∀ i ∈ savedImages (generate_icons w).1, i.mode = "RGBA" := by
  rw [gen_ok w img hopen h]
  refine ⟨?_, ?_, ?_⟩
  · by_cases hmode : img.mode = "RGBA" <;>
      simp [fullTrace, flatTraces, densityTrace, convertCount, ICON_SIZES, hmode]
  · by_cases hmode : img.mode = "RGBA" <;>
      simp [fullTrace, flatTraces, densityTrace, convertCount, isResizeEv,
        ICON_SIZES, hmode, List.dropWhile]
  · intro i hi
    rw [savedImages_fullTrace] at hi
    simp only [rep4, ICON_SIZES, List.map_cons, List.map_nil, List.mem_cons,
      List.not_mem_nil, or_false] at hi
    have hm := rgbaOf_mode w img
    rcases hi with h1|h1|h1|h1|h1|h1|h1|h1|h1|h1|h1|h1|h1|h1|h1|h1|h1|h1|h1|h1 <;>
      (subst h1; simpa [Image.resize] using hm)

theorem spec_C4_witness :
    convertCount (generate_icons rgbWorld).1 = (if rgbImg.mode = "RGBA" then 0 else 1) ∧
    convertCount ((generate_icons rgbWorld).1.dropWhile (fun e => !isResizeEv e)) = 0 ∧
    ∀ i ∈ savedImages (generate_icons rgbWorld).1, i.mode = "RGBA" :=
  spec_C4 rgbWorld rgbImg rfl ⟨fun _ => rfl, fun _ => rfl, fun _ => rfl⟩

/-- C5: For every density with target size `s`, the resized bitmap has
dimensions exactly `s × s`, produced with the Lanczos resampling filter;
the source aspect ratio is not preserved — any source image (`img` has
arbitrary width and height here), square or not, is force-scaled to the
square `s × s`. -/
theorem spec_C5 {α β : Type} (w : World α β) (img : Image α)
    (hopen : w.openResult = Except.ok img) (h : okWorld w) :
    resizeEvents (generate_icons w).1 =
      [((48, 48), Resampling.LANCZOS), ((72, 72), Resampling.LANCZOS),
       ((96, 96), Resampling.LANCZOS), ((144, 144), Resampling.LANCZOS),
       ((192, 192), Resampling.LANCZOS)] ∧
    savedSizes (generate_icons w).1 =
      [(48, 48), (48, 48), (48, 48), (48, 48),
       (72, 72), (72, 72), (72, 72), (72, 72),
       (96, 96), (96, 96), (96, 96), (96, 96),
       (144, 144), (144, 144), (144, 144), (144, 144),
       (192, 192), (192, 192), (192, 192), (192, 192)] := by
  rw [gen_ok w img hopen h]
  constructor
  · by_cases hmode : img.mode = "RGBA" <;>
      simp [fullTrace, flatTraces, densityTrace, resizeEvents, ICON_SIZES, hmode]
  · rw [savedSizes, savedImages_fullTrace]
    simp [rep4, ICON_SIZES, Image.resize]

theorem spec_C5_witness :
    resizeEvents (generate_icons okTestWorld).1 =
      [((48, 48), Resampling.LANCZOS), ((72, 72), Resampling.LANCZOS),
       ((96, 96), Resampling.LANCZOS), ((144, 144), Resampling.LANCZOS),
       ((192, 192), Resampling.LANCZOS)] ∧
    savedSizes (generate_icons okTestWorld).1 =
      [(48, 48), (48, 48), (48, 48), (48, 48),
       (72, 72), (72, 72), (72, 72), (72, 72),
       (96, 96), (96, 96), (96, 96), (96, 96),
       (144, 144), (144, 144), (144, 144), (144, 144),
       (192, 192), (192, 192), (192, 192), (192, 192)] :=
  spec_C5 okTestWorld testImg rfl ⟨fun _ => rfl, fun _ => rfl, fun _ => rfl⟩

/-- C6: The density table is the immutable mapping mdpi→48, hdpi→72,
xhdpi→96, xxhdpi→144, xxxhdpi→192, and `generate_icons` iterates it in
exactly that insertion order (mdpi first, xxxhdpi last): the directory
creations of a run appear in exactly that order.  Determinism on every
run holds because `generate_icons` is a function of the world. -/
theorem spec_C6 {α β : Type} (w : World α β) (img : Image α)
    (hopen : w.openResult = Except.ok img) (h : okWorld w) :
    ICON_SIZES = [("mdpi", 48), ("hdpi", 72), ("xhdpi", 96),
      ("xxhdpi", 144), ("xxxhdpi", 192)] ∧
    mkdirPaths (generate_icons w).1 = mipmapDirs := by
  refine ⟨rfl, ?_⟩
  rw [gen_ok w img hopen h]
  by_cases hmode : img.mode = "RGBA" <;>
    simp [fullTrace, flatTraces, densityTrace, mkdirPaths, ICON_SIZES,
      MIPMAP_DIR, mipmapDirs, hmode]

theorem spec_C6_witness :
    ICON_SIZES = [("mdpi", 48), ("hdpi", 72), ("xhdpi", 96),
      ("xxhdpi", 144), ("xxxhdpi", 192)] ∧
    mkdirPaths (generate_icons okTestWorld).1 = mipmapDirs :=
  spec_C6 okTestWorld testImg rfl ⟨fun _ => rfl, fun _ => rfl, fun _ => rfl⟩

/-- C7: The only failure `generate_icons` catches is the initial
source-image load failure (first conjunct: a load error still yields a
normal return).  Every exception raised after a successful load
propagates uncaught out of `generate_icons` as the unmodified error of
the failed OS/PIL call (directory creation, resize, or one of the
per-file writes), with no retry and no cleanup: the events already
performed — including every file already written for earlier densities —
form an initial segment of the successful run's trace, and nothing is
removed. -/
theorem spec_C7 {α β : Type} (w : World α β) :
    (∀ e, w.openResult = Except.error e → (generate_icons w).2 = none) ∧
    (∀ (img : Image α) (e : String), w.openResult = Except.ok img →
      (generate_icons w).2 = some e →
      ((∃ p, w.makedirsErr p = some e) ∨ (∃ n, w.resizeErr n = some e) ∨
        (∃ p, w.saveErr p = some e)) ∧
      ∃ u, (generate_icons w).1 ++ u = fullTrace w img) := by
  constructor
  · intro e he
    simp [generate_icons, he]
  · intro img e hopen hsome
    obtain ⟨⟨u, hu⟩, _, herr⟩ := gen_agrees w img hopen
    exact ⟨herr e hsome, ⟨u, hu⟩⟩

theorem spec_C7_witness :
    ((∃ p, failWorld.makedirsErr p = some "disk full") ∨
     (∃ n, failWorld.resizeErr n = some "disk full") ∨
     (∃ p, failWorld.saveErr p = some "disk full")) ∧
    ∃ u, (generate_icons failWorld).1 ++ u = fullTrace failWorld testImg :=
  (spec_C7 failWorld).2 testImg "disk full" rfl (by decide)

/-- C8: Running `generate_icons` twice in succession on the same source
image is deterministic (it is a function of the world, and the encoders
of the model are functions): the second run produces the same trace,
writing the same 20 paths, and replaying that trace over the filesystem
left by the first run changes nothing — every output file ends
byte-for-byte identical, earlier outputs simply overwritten. -/
theorem spec_C8 {α β : Type} (w : World α β) (img : Image α)
    (hopen : w.openResult = Except.ok img) (h : okWorld w) :
    savePaths (generate_icons w).1 = iconPaths ∧
    ∀ fs : String → Option β,
      applyTrace w (applyTrace w fs (generate_icons w).1) (generate_icons w).1 =
        applyTrace w fs (generate_icons w).1 := by
  refine ⟨?_, fun fs => applyTrace_twice w _ fs⟩
  rw [gen_ok w img hopen h]
  exact savePaths_fullTrace w img

theorem spec_C8_witness :
    savePaths (generate_icons okTestWorld).1 = iconPaths ∧
    applyTrace okTestWorld
        (applyTrace okTestWorld (fun _ => none) (generate_icons okTestWorld).1)
        (generate_icons okTestWorld).1 =
      applyTrace okTestWorld (fun _ => none) (generate_icons okTestWorld).1 :=
  ⟨(spec_C8 okTestWorld testImg rfl
      ⟨fun _ => rfl, fun _ => rfl, fun _ => rfl⟩).1,
   (spec_C8 okTestWorld testImg rfl
      ⟨fun _ => rfl, fun _ => rfl, fun _ => rfl⟩).2 (fun _ => none)⟩

/-- C9: The loop body never mutates the (converted) source image: the
trace of the loop on any source image and any density list is the
concatenation of per-density traces, each computed by `densityTrace`
from the same unchanged source — so the output for each density is
independent of which densities were processed before it — and every
saved bitmap of a run is the resize of the one converted source. -/
theorem spec_C9 {α β : Type} (w : World α β) (h : okWorld w) :
    (∀ (src : Image α) (l : List (String × Nat)),
      runLoop w src l = (flatTraces (densityTrace w src) l, none)) ∧
    (∀ img : Image α, w.openResult = Except.ok img →
      savedImages (generate_icons w).1 =
        rep4 (ICON_SIZES.map
          (fun p => (rgbaOf w img).resize w (p.2, p.2) Resampling.LANCZOS))) := by
  refine ⟨fun src l => runLoop_ok w src h l, fun img hopen => ?_⟩
  rw [gen_ok w img hopen h]
  exact savedImages_fullTrace w img

theorem spec_C9_witness :
    savedImages (generate_icons okTestWorld).1 =
      rep4 (ICON_SIZES.map
        (fun p => (rgbaOf okTestWorld testImg).resize okTestWorld
          (p.2, p.2) Resampling.LANCZOS)) :=
  (spec_C9 okTestWorld ⟨fun _ => rfl, fun _ => rfl, fun _ => rfl⟩).2 testImg rfl

/-- C10: Within each density iteration, the four output files are always
written in the fixed order `ic_launcher.png`, `ic_launcher_round.png`,
`ic_launcher.webp`, `ic_launcher_round.webp`, each write immediately
followed by its progress line (this order is the literal content of
`densityTrace`, and the successful trace equals `fullTrace`, the
concatenation of `densityTrace` over the table).  Consequently, whatever
failure interrupts a run, the files written are always an initial
segment of the 20 paths in that fixed order: everything earlier in the
order was already written. -/
theorem spec_C10 {α β : Type} (w : World α β) (img : Image α)
    (hopen : w.openResult = Except.ok img) :
    (okWorld w → (generate_icons w).1 = fullTrace w img) ∧
    ∃ n, savePaths (generate_icons w).1 = iconPaths.take n := by
  constructor
  · intro h
    rw [gen_ok w img hopen h]
  · obtain ⟨⟨u, hu⟩, _, _⟩ := gen_agrees w img hopen
    refine ⟨(savePaths (generate_icons w).1).length, ?_⟩
    have hsp : savePaths (generate_icons w).1 ++ savePaths u = iconPaths := by
      rw [← savePaths_fullTrace w img, ← hu]
      simp [savePaths, List.filterMap_append]
    rw [← hsp]
    exact (List.take_left _ _).symm

theorem spec_C10_witness :
    (generate_icons okTestWorld).1 = fullTrace okTestWorld testImg ∧
    ∃ n, savePaths (generate_icons okTestWorld).1 = iconPaths.take n :=
  ⟨(spec_C10 okTestWorld testImg rfl).1
      ⟨fun _ => rfl, fun _ => rfl, fun _ => rfl⟩,
   (spec_C10 okTestWorld testImg rfl).2⟩

end IconGen
